import Mathlib

/-!
Shallow embedding of `src/amipy/amiwrapper.py` (the `AmiWrapper` class and
the module-level helper `check_result`), together with theorems settling
the specification claims about it.

Modelling conventions:
* The loaded kernel module (`self.dll`, a ctypes CDLL) is modelled as a
  record `Dll` of pure functions, one per kernel entry point the wrapper
  calls.  Each kernel function yields its integer status code together
  with the values it writes into the caller-supplied output slots; these
  outputs are taken as given (the kernel is an opaque collaborator).
* The process-wide state touched by the wrapper is the current working
  directory (`os.getcwd` / `os.chdir`), modelled by `OsState`.
* Python exceptions are modelled with `Except PyErr`: `check_result`
  raising `Exception(msg)` becomes `Except.error (PyErr.exn msg)`,
  `raise NotImplementedError` becomes `Except.error PyErr.notImplementedError`,
  and `assert False` becomes `Except.error PyErr.assertionError`.
* Every method returns a `MethodResult`: the Python return value (or the
  propagating exception), the updated object, the updated process state,
  and a trace listing each kernel entry point invoked together with the
  process current working directory at the moment of that invocation.
  The trace is pure instrumentation: it records where each `self.dll.*`
  call site sits relative to the surrounding `os.chdir` calls.
* Python floats are Lean `Float`; no claim reasons about their values.
-/

deriving instance DecidableEq for Except

/-- `BMI_SUCCESS = 0` (module constant, line 8 of the source). -/
def BMI_SUCCESS : Int := 0

/-- `BMI_FAILURE = 1` (module constant, line 9 of the source). -/
def BMI_FAILURE : Int := 1

/-- A raised Python exception, as the wrapper can produce it. -/
inductive PyErr where
  /-- `raise Exception(msg)` as done by `check_result`. -/
  | exn (msg : String) : PyErr
  /-- `raise NotImplementedError` (the unimplemented protocol methods). -/
  | notImplementedError : PyErr
  /-- `assert False` (scalar double path of `get_value_ptr_scalar`). -/
  | assertionError : PyErr
deriving DecidableEq, Repr

/-- Element type of a numpy array view built via `np.ctypeslib.ndpointer`. -/
inductive DType where
  | float64 : DType
  | int32 : DType
deriving DecidableEq, Repr

/-- The typed array view returned by `get_value_ptr` /
`get_value_ptr_scalar`: `values.contents` for
`values : np.ctypeslib.ndpointer(dtype, ndim, shape, flags)()` after the
kernel wrote the address `ptr` of its own buffer into `values`.
`fortranOrder` records whether the view was built with `flags` set to
the Fortran (column-major) layout flag; `ptr` is the kernel-owned
address the view aliases (no copy is made). -/
structure NdPointer where
  dtype : DType
  ndim : Nat
  shape : List Int
  fortranOrder : Bool
  ptr : Nat
deriving DecidableEq, Repr

/-- The kernel shared library (`self.dll`).  One field per entry point the
wrapper uses.  A field of type `... → Int × α` returns the integer status
code of the call paired with what the kernel wrote into the caller's
output slot/buffer; a field of type `... → Int` is an entry point whose
only observable is the status code.  `constants` models
`c_int.in_dll(self.dll, name).value`. -/
structure Dll where
  constants : String → Int
  initialize_kernel : String → Int
  update : Int
  finalize : Int
  get_current_time : Int × Float
  get_start_time : Int × Float
  get_end_time : Int × Float
  get_time_step : Int × Float
  get_var_type : String → Int × String
  /-- Status code, and the contents of the caller's int32 shape buffer
  after the kernel filled it. -/
  get_var_shape : String → Int × List Int
  get_var_rank : String → Int × Int
  get_var_itemsize : String → Int × Int
  get_var_nbytes : String → Int × Int
  /-- Status code, and the kernel-owned address written into the
  double-pointer output slot. -/
  get_value_ptr_double : String → Int × Nat
  /-- Status code, and the kernel-owned address written into the
  int-pointer output slot. -/
  get_value_ptr_int : String → Int × Nat
  get_grid_rank : Int → Int × Int
  get_grid_type : Int → Int × String
  /-- Status code, and the contents of the caller's shape buffer after
  the call. -/
  get_grid_shape : Int → Int × List Int
  get_grid_x : Int → Int × List Float
  get_grid_y : Int → Int × List Float
  get_grid_z : Int → Int × List Float
  prepare_time_step : Float → Int
  do_time_step : Int
  finalize_time_step : Int
  get_subcomponent_count : Int × Int
  prepare_solve : Int → Int
  /-- Status code, and the integer written into the `has_converged`
  output slot. -/
  solve : Int → Int × Int
  finalize_solve : Int → Int

/-- Process-wide state the wrapper touches: the current working
directory (`os.getcwd()` reads it, `os.chdir(d)` sets it). -/
structure OsState where
  cwd : String
deriving DecidableEq, Repr

/-- The `AmiWrapper` object: its instance attributes as assigned in
`__init__` and mutated by the methods. -/
structure AmiWrapper where
  path : String
  dll : Dll
  MAXSTRLEN : Int
  working_directory : String
  previous_directory : String

/-- Trace of kernel invocations: each entry is the kernel entry-point
name paired with the process current working directory at the moment
the kernel function was invoked. -/
abbrev KTrace := List (String × String)

/-- Outcome of running one wrapper method: the Python return value or
the exception that propagates, the updated object, the updated process
state, and the kernel-invocation trace. -/
structure MethodResult (α : Type) where
  result : Except PyErr α
  self : AmiWrapper
  os : OsState
  trace : KTrace

/-- `check_result(result, function_name, detail="")` (source lines
335-343): raises `Exception` with the composed message whenever the
status code differs from `BMI_SUCCESS`, otherwise falls through. -/
def check_result (result : Int) (function_name : String) (detail : String := "") :
    Except PyErr Unit :=
  if result ≠ BMI_SUCCESS then
    Except.error (PyErr.exn
      ("MODFLOW 6 BMI, exception in: " ++ function_name ++ " (" ++ detail ++ ")"))
  else
    Except.ok ()

/-- `AmiWrapper.get_constant_int(name)`: reads an integer constant
exported by the kernel module. -/
def Dll.get_constant_int (dll : Dll) (name : String) : Int :=
  dll.constants name

/-- `AmiWrapper.__init__(path)` (source lines 18-24): loads the kernel,
reads `MAXSTRLEN`, and sets both directory attributes to `"."`.  The
constructor takes no working-directory parameter; `loaded` stands for
`cdll.LoadLibrary(path)`. -/
def AmiWrapper.init (loaded : Dll) (path : String) : AmiWrapper :=
  { path := path
    dll := loaded
    MAXSTRLEN := loaded.get_constant_int "MAXSTRLEN"
    working_directory := "."
    previous_directory := "." }

/-- `AmiWrapper.initialize(config_file)` (source lines 34-38): captures
the current directory into `previous_directory`, switches to
`working_directory`, invokes the kernel, and switches back only after
`check_result` returns; when `check_result` raises, the exception
propagates before the `os.chdir(self.previous_directory)` line runs. -/
def AmiWrapper.initialize_kernel (self : AmiWrapper) (os : OsState) (config_file : String) :
    MethodResult Unit :=
  let self := { self with previous_directory := os.cwd }
  let os := { os with cwd := self.working_directory }
  let t : KTrace := [("initialize", os.cwd)]
  match check_result (self.dll.initialize_kernel config_file) "initialize" with
  | Except.error e => ⟨Except.error e, self, os, t⟩
  | Except.ok _ =>
      let os := { os with cwd := self.previous_directory }
      ⟨Except.ok (), self, os, t⟩

/-- `AmiWrapper.update()` (source lines 40-44): same directory-scoping
shape as `initialize`. -/
def AmiWrapper.update (self : AmiWrapper) (os : OsState) : MethodResult Unit :=
  let self := { self with previous_directory := os.cwd }
  let os := { os with cwd := self.working_directory }
  let t : KTrace := [("update", os.cwd)]
  match check_result self.dll.update "update" with
  | Except.error e => ⟨Except.error e, self, os, t⟩
  | Except.ok _ =>
      let os := { os with cwd := self.previous_directory }
      ⟨Except.ok (), self, os, t⟩

/-- `AmiWrapper.update_until(time)` (source lines 46-50): switches
directory, then calls `check_result(BMI_FAILURE, "update_until")`
without invoking any kernel entry point, so it raises unconditionally;
the trailing restore line is never reached. -/
def AmiWrapper.update_until (self : AmiWrapper) (os : OsState) (time : Float) :
    MethodResult Unit :=
  let _ := time
  let self := { self with previous_directory := os.cwd }
  let os := { os with cwd := self.working_directory }
  match check_result BMI_FAILURE "update_until" with
  | Except.error e => ⟨Except.error e, self, os, []⟩
  | Except.ok _ =>
      let os := { os with cwd := self.previous_directory }
      ⟨Except.ok (), self, os, []⟩

/-- `AmiWrapper.finalize()` (source lines 52-56). -/
def AmiWrapper.finalize (self : AmiWrapper) (os : OsState) : MethodResult Unit :=
  let self := { self with previous_directory := os.cwd }
  let os := { os with cwd := self.working_directory }
  let t : KTrace := [("finalize", os.cwd)]
  match check_result self.dll.finalize "finalize" with
  | Except.error e => ⟨Except.error e, self, os, t⟩
  | Except.ok _ =>
      let os := { os with cwd := self.previous_directory }
      ⟨Except.ok (), self, os, t⟩

/-- `AmiWrapper.get_current_time()` (source lines 58-62): invokes the
kernel clock query at the caller's current directory (the method
contains no `os.chdir` call) and returns the double written into the
output slot when the status is success. -/
def AmiWrapper.get_current_time (self : AmiWrapper) (os : OsState) :
    MethodResult Float :=
  let (status, current_time) := self.dll.get_current_time
  let t : KTrace := [("get_current_time", os.cwd)]
  match check_result status "get_current_time" with
  | Except.error e => ⟨Except.error e, self, os, t⟩
  | Except.ok _ => ⟨Except.ok current_time, self, os, t⟩

/-- `AmiWrapper.get_start_time()` (source lines 64-68). -/
def AmiWrapper.get_start_time (self : AmiWrapper) (os : OsState) :
    MethodResult Float :=
  let (status, start_time) := self.dll.get_start_time
  let t : KTrace := [("get_start_time", os.cwd)]
  match check_result status "get_start_time" with
  | Except.error e => ⟨Except.error e, self, os, t⟩
  | Except.ok _ => ⟨Except.ok start_time, self, os, t⟩

/-- `AmiWrapper.get_end_time()` (source lines 70-73). -/
def AmiWrapper.get_end_time (self : AmiWrapper) (os : OsState) :
    MethodResult Float :=
  let (status, end_time) := self.dll.get_end_time
  let t : KTrace := [("get_end_time", os.cwd)]
  match check_result status "get_end_time" with
  | Except.error e => ⟨Except.error e, self, os, t⟩
  | Except.ok _ => ⟨Except.ok end_time, self, os, t⟩

/-- `AmiWrapper.get_time_step()` (source lines 75-78). -/
def AmiWrapper.get_time_step (self : AmiWrapper) (os : OsState) :
    MethodResult Float :=
  let (status, dt) := self.dll.get_time_step
  let t : KTrace := [("get_time_step", os.cwd)]
  match check_result status "get_time_step" with
  | Except.error e => ⟨Except.error e, self, os, t⟩
  | Except.ok _ => ⟨Except.ok dt, self, os, t⟩

/-- `AmiWrapper.get_component_name()` (source lines 80-81):
`raise NotImplementedError`, unconditionally. -/
def AmiWrapper.get_component_name (self : AmiWrapper) (os : OsState) :
    MethodResult String :=
  ⟨Except.error PyErr.notImplementedError, self, os, []⟩

/-- `AmiWrapper.get_time_units()` (source lines 141-142):
`raise NotImplementedError`, unconditionally. -/
def AmiWrapper.get_time_units (self : AmiWrapper) (os : OsState) :
    MethodResult String :=
  ⟨Except.error PyErr.notImplementedError, self, os, []⟩

/-- `AmiWrapper.get_value(name, dest)` (source lines 144-145):
`raise NotImplementedError`, unconditionally. -/
def AmiWrapper.get_value (self : AmiWrapper) (os : OsState)
    (name : String) (dest : List Float) : MethodResult (List Float) :=
  let _ := name
  let _ := dest
  ⟨Except.error PyErr.notImplementedError, self, os, []⟩

/-- `AmiWrapper.set_value(name, values)` (source lines 195-196):
`raise NotImplementedError`, unconditionally. -/
def AmiWrapper.set_value (self : AmiWrapper) (os : OsState)
    (name : String) (values : List Float) : MethodResult Unit :=
  let _ := name
  let _ := values
  ⟨Except.error PyErr.notImplementedError, self, os, []⟩

/-- `AmiWrapper.get_grid_size(grid)` (source lines 209-210):
`raise NotImplementedError`, unconditionally. -/
def AmiWrapper.get_grid_size (self : AmiWrapper) (os : OsState)
    (grid : Int) : MethodResult Int :=
  let _ := grid
  ⟨Except.error PyErr.notImplementedError, self, os, []⟩

/-- `AmiWrapper.get_grid_node_count(grid)` (source lines 250-251):
`raise NotImplementedError`, unconditionally. -/
def AmiWrapper.get_grid_node_count (self : AmiWrapper) (os : OsState)
    (grid : Int) : MethodResult Int :=
  let _ := grid
  ⟨Except.error PyErr.notImplementedError, self, os, []⟩

/-- `AmiWrapper.get_var_type(name)` (source lines 98-103): queries the
kernel for the element-type string of the named variable; no directory
switch.  The `detail` passed to `check_result` is
`"for variable " + name`. -/
def AmiWrapper.get_var_type (self : AmiWrapper) (os : OsState) (name : String) :
    MethodResult String :=
  let (status, var_type) := self.dll.get_var_type name
  let t : KTrace := [("get_var_type", os.cwd)]
  match check_result status "get_var_type" ("for variable " ++ name) with
  | Except.error e => ⟨Except.error e, self, os, t⟩
  | Except.ok _ => ⟨Except.ok var_type, self, os, t⟩

/-- `AmiWrapper.get_var_rank(name)` (source lines 114-119): queries the
kernel for the rank of the named variable; no directory switch. -/
def AmiWrapper.get_var_rank (self : AmiWrapper) (os : OsState) (name : String) :
    MethodResult Int :=
  let (status, rank) := self.dll.get_var_rank name
  let t : KTrace := [("get_var_rank", os.cwd)]
  match check_result status "get_var_rank" ("for variable " ++ name) with
  | Except.error e => ⟨Except.error e, self, os, t⟩
  | Except.ok _ => ⟨Except.ok rank, self, os, t⟩

/-- `AmiWrapper.get_var_shape(name)` (source lines 106-112): first calls
`self.get_var_rank(name)` (which may raise), then allocates an int32
buffer of that length and has the kernel fill it; the returned list is
the buffer contents after the kernel call (the kernel-reported shape
array, returned as-is, padding included). -/
def AmiWrapper.get_var_shape (self : AmiWrapper) (os : OsState) (name : String) :
    MethodResult (List Int) :=
  match self.get_var_rank os name with
  | ⟨Except.error e, self1, os1, t1⟩ => ⟨Except.error e, self1, os1, t1⟩
  | ⟨Except.ok _, self1, os1, t1⟩ =>
      let (status, array) := self1.dll.get_var_shape name
      let t2 : KTrace := [("get_var_shape", os1.cwd)]
      match check_result status "get_var_shape" ("for variable " ++ name) with
      | Except.error e => ⟨Except.error e, self1, os1, t1 ++ t2⟩
      | Except.ok _ => ⟨Except.ok array, self1, os1, t1 ++ t2⟩

/-- `AmiWrapper.get_var_itemsize(name)` (source lines 124-129). -/
def AmiWrapper.get_var_itemsize (self : AmiWrapper) (os : OsState) (name : String) :
    MethodResult Int :=
  let (status, item_size) := self.dll.get_var_itemsize name
  let t : KTrace := [("get_var_itemsize", os.cwd)]
  match check_result status "get_var_itemsize" ("for variable " ++ name) with
  | Except.error e => ⟨Except.error e, self, os, t⟩
  | Except.ok _ => ⟨Except.ok item_size, self, os, t⟩

/-- `AmiWrapper.get_var_nbytes(name)` (source lines 131-136). -/
def AmiWrapper.get_var_nbytes (self : AmiWrapper) (os : OsState) (name : String) :
    MethodResult Int :=
  let (status, nbytes) := self.dll.get_var_nbytes name
  let t : KTrace := [("get_var_nbytes", os.cwd)]
  match check_result status "get_var_nbytes" ("for variable " ++ name) with
  | Except.error e => ⟨Except.error e, self, os, t⟩
  | Except.ok _ => ⟨Except.ok nbytes, self, os, t⟩

/-- `np.trim_zeros(filt)` with the default trim mode, as invoked at
source line 158: removes the maximal run of leading zeros and the
maximal run of trailing zeros from the array (interior zeros stay). -/
def trim_zeros (l : List Int) : List Int :=
  ((l.dropWhile (· == 0)).reverse.dropWhile (· == 0)).reverse

/-- `str.lower` on one character: ASCII uppercase letters map to their
lowercase counterparts (the kernel-reported type strings are ASCII). -/
def py_char_lower (c : Char) : Char :=
  if 65 ≤ c.toNat ∧ c.toNat ≤ 90 then Char.ofNat (c.toNat + 32) else c

/-- `str.startswith` on character lists. -/
def py_startswith : List Char → List Char → Bool
  | _, [] => true
  | [], _ :: _ => false
  | c :: cs, d :: ds => c == d && py_startswith cs ds

/-- `vartype.lower().startswith(s)`, the dispatch test of source lines
161, 169, 180 and 182. -/
def py_lower_startswith (vartype s : String) : Bool :=
  py_startswith (vartype.data.map py_char_lower) s.data

/-- `AmiWrapper.get_value_ptr_scalar(name)` (source lines 178-189):
resolves the element type; `assert False` on a double-typed scalar;
builds a 1-element Fortran-ordered int32 view via the kernel's
int-pointer query on an int-typed scalar; and falls off the end of the
function (Python returns `None`) on any other type string. -/
def AmiWrapper.get_value_ptr_scalar (self : AmiWrapper) (os : OsState) (name : String) :
    MethodResult (Option NdPointer) :=
  match self.get_var_type os name with
  | ⟨Except.error e, self1, os1, t1⟩ => ⟨Except.error e, self1, os1, t1⟩
  | ⟨Except.ok vartype, self1, os1, t1⟩ =>
      if py_lower_startswith vartype "double" then
        ⟨Except.error PyErr.assertionError, self1, os1, t1⟩
      else if py_lower_startswith vartype "int" then
        let (status, p) := self1.dll.get_value_ptr_int name
        let t2 : KTrace := [("get_value_ptr_int", os1.cwd)]
        match check_result status "get_value_ptr" ("for variable " ++ name) with
        | Except.error e => ⟨Except.error e, self1, os1, t1 ++ t2⟩
        | Except.ok _ =>
            ⟨Except.ok (some ⟨DType.int32, 1, [1], true, p⟩), self1, os1, t1 ++ t2⟩
      else
        ⟨Except.ok none, self1, os1, t1⟩

/-- `AmiWrapper.get_value_ptr(name)` (source lines 147-176): dispatches
to the scalar path when the kernel-reported rank is 0; otherwise
resolves the type string and the raw shape array, trims zeros from the
shape to get the logical shape tuple, and branches on a case-insensitive
type-string match: a type starting with "double" yields a Fortran-ordered
float64 view filled through the kernel's double-pointer query, a type
starting with "int" an int32 view through the int-pointer query, and any
other type string reaches the end of the function (Python returns
`None`). -/
def AmiWrapper.get_value_ptr (self : AmiWrapper) (os : OsState) (name : String) :
    MethodResult (Option NdPointer) :=
  match self.get_var_rank os name with
  | ⟨Except.error e, self1, os1, t1⟩ => ⟨Except.error e, self1, os1, t1⟩
  | ⟨Except.ok rank, self1, os1, t1⟩ =>
      if rank == 0 then
        match self1.get_value_ptr_scalar os1 name with
        | ⟨r, self2, os2, t2⟩ => ⟨r, self2, os2, t1 ++ t2⟩
      else
        match self1.get_var_type os1 name with
        | ⟨Except.error e, self2, os2, t2⟩ => ⟨Except.error e, self2, os2, t1 ++ t2⟩
        | ⟨Except.ok vartype, self2, os2, t2⟩ =>
            match self2.get_var_shape os2 name with
            | ⟨Except.error e, self3, os3, t3⟩ =>
                ⟨Except.error e, self3, os3, t1 ++ t2 ++ t3⟩
            | ⟨Except.ok shape_array, self3, os3, t3⟩ =>
                let shape_tuple := trim_zeros shape_array
                let ndim := shape_tuple.length
                if py_lower_startswith vartype "double" then
                  let (status, p) := self3.dll.get_value_ptr_double name
                  let t4 : KTrace := [("get_value_ptr_double", os3.cwd)]
                  match check_result status "get_value_ptr" ("for variable " ++ name) with
                  | Except.error e =>
                      ⟨Except.error e, self3, os3, t1 ++ t2 ++ t3 ++ t4⟩
                  | Except.ok _ =>
                      ⟨Except.ok (some ⟨DType.float64, ndim, shape_tuple, true, p⟩),
                        self3, os3, t1 ++ t2 ++ t3 ++ t4⟩
                else if py_lower_startswith vartype "int" then
                  let (status, p) := self3.dll.get_value_ptr_int name
                  let t4 : KTrace := [("get_value_ptr_int", os3.cwd)]
                  match check_result status "get_value_ptr" ("for variable " ++ name) with
                  | Except.error e =>
                      ⟨Except.error e, self3, os3, t1 ++ t2 ++ t3 ++ t4⟩
                  | Except.ok _ =>
                      ⟨Except.ok (some ⟨DType.int32, ndim, shape_tuple, true, p⟩),
                        self3, os3, t1 ++ t2 ++ t3 ++ t4⟩
                else
                  ⟨Except.ok none, self3, os3, t1 ++ t2 ++ t3⟩

/-- `str` applied to the Python builtin function `id`, i.e. the value of
`str(id)`.  The grid methods at source lines 223, 235, 241 and 247 write
`"for id " + str(id)` where `id` is the *builtin*, not the `grid`
parameter (the parameter is named `grid`), so this constant string is
what actually lands in the error detail. -/
def str_of_builtin_id : String := "<built-in function id>"

/-- `AmiWrapper.get_grid_rank(grid)` (source lines 202-207): detail is
`"for id " + str(grid)` — here the parameter is used correctly. -/
def AmiWrapper.get_grid_rank (self : AmiWrapper) (os : OsState) (grid : Int) :
    MethodResult Int :=
  let (status, item_size) := self.dll.get_grid_rank grid
  let t : KTrace := [("get_grid_rank", os.cwd)]
  match check_result status "get_grid_rank" ("for id " ++ toString grid) with
  | Except.error e => ⟨Except.error e, self, os, t⟩
  | Except.ok _ => ⟨Except.ok item_size, self, os, t⟩

/-- `AmiWrapper.get_grid_type(grid)` (source lines 212-218): detail is
`"for id " + str(grid)`. -/
def AmiWrapper.get_grid_type (self : AmiWrapper) (os : OsState) (grid : Int) :
    MethodResult String :=
  let (status, grid_type) := self.dll.get_grid_type grid
  let t : KTrace := [("get_grid_type", os.cwd)]
  match check_result status "get_grid_type" ("for id " ++ toString grid) with
  | Except.error e => ⟨Except.error e, self, os, t⟩
  | Except.ok _ => ⟨Except.ok grid_type, self, os, t⟩

/-- `AmiWrapper.get_grid_shape(grid, shape)` (source lines 220-224): the
kernel fills the caller's buffer; the detail string is
`"for id " + str(id)` with `id` the Python builtin (source line 223),
so the grid argument never reaches the error message. -/
def AmiWrapper.get_grid_shape (self : AmiWrapper) (os : OsState) (grid : Int)
    (shape : List Int) : MethodResult (List Int) :=
  let _ := shape
  let (status, filled) := self.dll.get_grid_shape grid
  let t : KTrace := [("get_grid_shape", os.cwd)]
  match check_result status "get_grid_shape" ("for id " ++ str_of_builtin_id) with
  | Except.error e => ⟨Except.error e, self, os, t⟩
  | Except.ok _ => ⟨Except.ok filled, self, os, t⟩

/-- `AmiWrapper.get_grid_x(grid, x)` (source lines 232-236): detail uses
`str(id)` with `id` the builtin (source line 235). -/
def AmiWrapper.get_grid_x (self : AmiWrapper) (os : OsState) (grid : Int)
    (x : List Float) : MethodResult (List Float) :=
  let _ := x
  let (status, filled) := self.dll.get_grid_x grid
  let t : KTrace := [("get_grid_x", os.cwd)]
  match check_result status "get_grid_x" ("for id " ++ str_of_builtin_id) with
  | Except.error e => ⟨Except.error e, self, os, t⟩
  | Except.ok _ => ⟨Except.ok filled, self, os, t⟩

/-- `AmiWrapper.get_grid_y(grid, y)` (source lines 238-242): detail uses
`str(id)` with `id` the builtin (source line 241). -/
def AmiWrapper.get_grid_y (self : AmiWrapper) (os : OsState) (grid : Int)
    (y : List Float) : MethodResult (List Float) :=
  let _ := y
  let (status, filled) := self.dll.get_grid_y grid
  let t : KTrace := [("get_grid_y", os.cwd)]
  match check_result status "get_grid_y" ("for id " ++ str_of_builtin_id) with
  | Except.error e => ⟨Except.error e, self, os, t⟩
  | Except.ok _ => ⟨Except.ok filled, self, os, t⟩

/-- `AmiWrapper.get_grid_z(grid, z)` (source lines 244-248): detail uses
`str(id)` with `id` the builtin (source line 247). -/
def AmiWrapper.get_grid_z (self : AmiWrapper) (os : OsState) (grid : Int)
    (z : List Float) : MethodResult (List Float) :=
  let _ := z
  let (status, filled) := self.dll.get_grid_z grid
  let t : KTrace := [("get_grid_z", os.cwd)]
  match check_result status "get_grid_z" ("for id " ++ str_of_builtin_id) with
  | Except.error e => ⟨Except.error e, self, os, t⟩
  | Except.ok _ => ⟨Except.ok filled, self, os, t⟩

/-- `AmiWrapper.prepare_time_step(dt)` (source lines 278-283):
directory-scoped call passing the step size. -/
def AmiWrapper.prepare_time_step (self : AmiWrapper) (os : OsState) (dt : Float) :
    MethodResult Unit :=
  let self := { self with previous_directory := os.cwd }
  let os := { os with cwd := self.working_directory }
  let t : KTrace := [("prepare_time_step", os.cwd)]
  match check_result (self.dll.prepare_time_step dt) "prepare_time_step" with
  | Except.error e => ⟨Except.error e, self, os, t⟩
  | Except.ok _ =>
      let os := { os with cwd := self.previous_directory }
      ⟨Except.ok (), self, os, t⟩

/-- `AmiWrapper.do_time_step()` (source lines 285-289). -/
def AmiWrapper.do_time_step (self : AmiWrapper) (os : OsState) : MethodResult Unit :=
  let self := { self with previous_directory := os.cwd }
  let os := { os with cwd := self.working_directory }
  let t : KTrace := [("do_time_step", os.cwd)]
  match check_result self.dll.do_time_step "do_time_step" with
  | Except.error e => ⟨Except.error e, self, os, t⟩
  | Except.ok _ =>
      let os := { os with cwd := self.previous_directory }
      ⟨Except.ok (), self, os, t⟩

/-- `AmiWrapper.finalize_time_step()` (source lines 291-295). -/
def AmiWrapper.finalize_time_step (self : AmiWrapper) (os : OsState) :
    MethodResult Unit :=
  let self := { self with previous_directory := os.cwd }
  let os := { os with cwd := self.working_directory }
  let t : KTrace := [("finalize_time_step", os.cwd)]
  match check_result self.dll.finalize_time_step "finalize_time_step" with
  | Except.error e => ⟨Except.error e, self, os, t⟩
  | Except.ok _ =>
      let os := { os with cwd := self.previous_directory }
      ⟨Except.ok (), self, os, t⟩

/-- `AmiWrapper.get_subcomponent_count()` (source lines 297-301): a
plain kernel query at the caller's current directory (no `os.chdir` in
the method body). -/
def AmiWrapper.get_subcomponent_count (self : AmiWrapper) (os : OsState) :
    MethodResult Int :=
  let (status, count) := self.dll.get_subcomponent_count
  let t : KTrace := [("get_subcomponent_count", os.cwd)]
  match check_result status "get_subcomponent_count" with
  | Except.error e => ⟨Except.error e, self, os, t⟩
  | Except.ok _ => ⟨Except.ok count, self, os, t⟩

/-- `AmiWrapper.prepare_solve(component_id)` (source lines 303-310):
directory-scoped. -/
def AmiWrapper.prepare_solve (self : AmiWrapper) (os : OsState)
    (component_id : Int) : MethodResult Unit :=
  let self := { self with previous_directory := os.cwd }
  let os := { os with cwd := self.working_directory }
  let t : KTrace := [("prepare_solve", os.cwd)]
  match check_result (self.dll.prepare_solve component_id) "prepare_solve" with
  | Except.error e => ⟨Except.error e, self, os, t⟩
  | Except.ok _ =>
      let os := { os with cwd := self.previous_directory }
      ⟨Except.ok (), self, os, t⟩

/-- `AmiWrapper.solve(component_id)` (source lines 312-322):
directory-scoped kernel call writing an integer into the
`has_converged` output slot; after the scope closes the method returns
`has_converged.value == 1`. -/
def AmiWrapper.solve (self : AmiWrapper) (os : OsState)
    (component_id : Int) : MethodResult Bool :=
  let (status, has_converged) := self.dll.solve component_id
  let self := { self with previous_directory := os.cwd }
  let os := { os with cwd := self.working_directory }
  let t : KTrace := [("solve", os.cwd)]
  match check_result status "solve" with
  | Except.error e => ⟨Except.error e, self, os, t⟩
  | Except.ok _ =>
      let os := { os with cwd := self.previous_directory }
      ⟨Except.ok (has_converged == 1), self, os, t⟩

/-- `AmiWrapper.finalize_solve(component_id)` (source lines 325-332):
directory-scoped. -/
def AmiWrapper.finalize_solve (self : AmiWrapper) (os : OsState)
    (component_id : Int) : MethodResult Unit :=
  let self := { self with previous_directory := os.cwd }
  let os := { os with cwd := self.working_directory }
  let t : KTrace := [("finalize_solve", os.cwd)]
  match check_result (self.dll.finalize_solve component_id) "finalize_solve" with
  | Except.error e => ⟨Except.error e, self, os, t⟩
  | Except.ok _ =>
      let os := { os with cwd := self.previous_directory }
      ⟨Except.ok (), self, os, t⟩

/-- A concrete kernel for witnesses: every entry point succeeds;
variable "HEAD" is a rank-2 double with padded shape [0, 10, 5],
"NITER" a rank-0 integer, "DSCAL" a rank-0 double, "FLAG" a rank-1
variable of type "CHARACTER"; the double-pointer query hands out
address 42 and the int-pointer query address 7; `solve` converges
exactly for subcomponent 1. -/
def dllOk : Dll where
  constants := fun _ => 256
  initialize_kernel := fun _ => 0
  update := 0
  finalize := 0
  get_current_time := (0, 1.5)
  get_start_time := (0, 0.0)
  get_end_time := (0, 10.0)
  get_time_step := (0, 1.0)
  get_var_type := fun name =>
    if name = "HEAD" then (0, "DOUBLE PRECISION")
    else if name = "NITER" then (0, "INTEGER")
    else if name = "DSCAL" then (0, "DOUBLE PRECISION")
    else if name = "FLAG" then (0, "CHARACTER")
    else (0, "INTEGER")
  get_var_shape := fun name => if name = "HEAD" then (0, [0, 10, 5]) else (0, [3])
  get_var_rank := fun name =>
    if name = "HEAD" then (0, 2)
    else if name = "NITER" then (0, 0)
    else if name = "DSCAL" then (0, 0)
    else (0, 1)
  get_var_itemsize := fun _ => (0, 8)
  get_var_nbytes := fun _ => (0, 400)
  get_value_ptr_double := fun _ => (0, 42)
  get_value_ptr_int := fun _ => (0, 7)
  get_grid_rank := fun _ => (0, 2)
  get_grid_type := fun _ => (0, "rectilinear")
  get_grid_shape := fun _ => (0, [10, 5])
  get_grid_x := fun _ => (0, [])
  get_grid_y := fun _ => (0, [])
  get_grid_z := fun _ => (0, [])
  prepare_time_step := fun _ => 0
  do_time_step := 0
  finalize_time_step := 0
  get_subcomponent_count := (0, 2)
  prepare_solve := fun _ => 0
  solve := fun cid => (0, if cid = 1 then 1 else 5)
  finalize_solve := fun _ => 0

/-- A process state whose current directory is the caller's directory. -/
def osC : OsState := ⟨"caller"⟩

/-- A wrapper over the all-success kernel, directly after construction. -/
def wOk : AmiWrapper := AmiWrapper.init dllOk "libmf6.so"

/-- `wOk` after the caller assigned a working directory, as the spec's
usage expects (`mf6.working_directory = ...`). -/
def wWd : AmiWrapper := { wOk with working_directory := "wd" }

/-- Kernel whose `initialize` entry point reports failure (status 1). -/
def dllInitFail : Dll := { dllOk with initialize_kernel := fun _ => 1 }

/-- Wrapper over the failing-initialize kernel with a configured working
directory. -/
def wInitFail : AmiWrapper :=
  { AmiWrapper.init dllInitFail "libmf6.so" with working_directory := "wd" }

/-- Kernel whose grid queries all report failure (status 1). -/
def dllGridFail : Dll :=
  { dllOk with
    get_grid_rank := fun _ => (1, 0)
    get_grid_shape := fun _ => (1, [])
    get_grid_x := fun _ => (1, [])
    get_grid_y := fun _ => (1, [])
    get_grid_z := fun _ => (1, []) }

/-- Wrapper over the failing-grid kernel. -/
def wGridFail : AmiWrapper := AmiWrapper.init dllGridFail "libmf6.so"

/-! ### Where each method invokes the kernel

For every method, `trace` records each kernel entry point invoked and
the process current working directory at that moment.  The lemmas below
show which methods bracket the kernel call with a directory switch
(trace entry at `working_directory`) and which invoke the kernel at the
caller's directory unchanged. -/

lemma initialize_kernel_scoped (w : AmiWrapper) (os : OsState) (cfg : String) :
    (w.initialize_kernel os cfg).trace = [("initialize", w.working_directory)] := by
  unfold AmiWrapper.initialize_kernel
  dsimp only
  cases check_result (w.dll.initialize_kernel cfg) "initialize" <;> rfl

lemma update_scoped (w : AmiWrapper) (os : OsState) :
    (w.update os).trace = [("update", w.working_directory)] := by
  unfold AmiWrapper.update
  dsimp only
  cases check_result w.dll.update "update" <;> rfl

lemma finalize_scoped (w : AmiWrapper) (os : OsState) :
    (w.finalize os).trace = [("finalize", w.working_directory)] := by
  unfold AmiWrapper.finalize
  dsimp only
  cases check_result w.dll.finalize "finalize" <;> rfl

lemma prepare_time_step_scoped (w : AmiWrapper) (os : OsState) (dt : Float) :
    (w.prepare_time_step os dt).trace = [("prepare_time_step", w.working_directory)] := by
  unfold AmiWrapper.prepare_time_step
  dsimp only
  cases check_result (w.dll.prepare_time_step dt) "prepare_time_step" <;> rfl

lemma do_time_step_scoped (w : AmiWrapper) (os : OsState) :
    (w.do_time_step os).trace = [("do_time_step", w.working_directory)] := by
  unfold AmiWrapper.do_time_step
  dsimp only
  cases check_result w.dll.do_time_step "do_time_step" <;> rfl

lemma finalize_time_step_scoped (w : AmiWrapper) (os : OsState) :
    (w.finalize_time_step os).trace = [("finalize_time_step", w.working_directory)] := by
  unfold AmiWrapper.finalize_time_step
  dsimp only
  cases check_result w.dll.finalize_time_step "finalize_time_step" <;> rfl

lemma prepare_solve_scoped (w : AmiWrapper) (os : OsState) (cid : Int) :
    (w.prepare_solve os cid).trace = [("prepare_solve", w.working_directory)] := by
  unfold AmiWrapper.prepare_solve
  dsimp only
  cases check_result (w.dll.prepare_solve cid) "prepare_solve" <;> rfl

lemma solve_scoped (w : AmiWrapper) (os : OsState) (cid : Int) :
    (w.solve os cid).trace = [("solve", w.working_directory)] := by
  unfold AmiWrapper.solve
  dsimp only
  cases check_result (w.dll.solve cid).1 "solve" <;> rfl

lemma finalize_solve_scoped (w : AmiWrapper) (os : OsState) (cid : Int) :
    (w.finalize_solve os cid).trace = [("finalize_solve", w.working_directory)] := by
  unfold AmiWrapper.finalize_solve
  dsimp only
  cases check_result (w.dll.finalize_solve cid) "finalize_solve" <;> rfl

lemma get_current_time_unscoped (w : AmiWrapper) (os : OsState) :
    (w.get_current_time os).trace = [("get_current_time", os.cwd)] ∧
    (w.get_current_time os).os = os := by
  unfold AmiWrapper.get_current_time
  dsimp only
  cases check_result (w.dll.get_current_time).1 "get_current_time" <;> exact ⟨rfl, rfl⟩

lemma get_start_time_unscoped (w : AmiWrapper) (os : OsState) :
    (w.get_start_time os).trace = [("get_start_time", os.cwd)] ∧
    (w.get_start_time os).os = os := by
  unfold AmiWrapper.get_start_time
  dsimp only
  cases check_result (w.dll.get_start_time).1 "get_start_time" <;> exact ⟨rfl, rfl⟩

lemma get_end_time_unscoped (w : AmiWrapper) (os : OsState) :
    (w.get_end_time os).trace = [("get_end_time", os.cwd)] ∧
    (w.get_end_time os).os = os := by
  unfold AmiWrapper.get_end_time
  dsimp only
  cases check_result (w.dll.get_end_time).1 "get_end_time" <;> exact ⟨rfl, rfl⟩

lemma get_time_step_unscoped (w : AmiWrapper) (os : OsState) :
    (w.get_time_step os).trace = [("get_time_step", os.cwd)] ∧
    (w.get_time_step os).os = os := by
  unfold AmiWrapper.get_time_step
  dsimp only
  cases check_result (w.dll.get_time_step).1 "get_time_step" <;> exact ⟨rfl, rfl⟩

lemma get_var_type_unscoped (w : AmiWrapper) (os : OsState) (nm : String) :
    (w.get_var_type os nm).trace = [("get_var_type", os.cwd)] ∧
    (w.get_var_type os nm).os = os := by
  unfold AmiWrapper.get_var_type
  dsimp only
  cases check_result (w.dll.get_var_type nm).1 "get_var_type" ("for variable " ++ nm) <;>
    exact ⟨rfl, rfl⟩

lemma get_var_rank_unscoped (w : AmiWrapper) (os : OsState) (nm : String) :
    (w.get_var_rank os nm).trace = [("get_var_rank", os.cwd)] ∧
    (w.get_var_rank os nm).os = os := by
  unfold AmiWrapper.get_var_rank
  dsimp only
  cases check_result (w.dll.get_var_rank nm).1 "get_var_rank" ("for variable " ++ nm) <;>
    exact ⟨rfl, rfl⟩

lemma get_var_itemsize_unscoped (w : AmiWrapper) (os : OsState) (nm : String) :
    (w.get_var_itemsize os nm).trace = [("get_var_itemsize", os.cwd)] ∧
    (w.get_var_itemsize os nm).os = os := by
  unfold AmiWrapper.get_var_itemsize
  dsimp only
  cases check_result (w.dll.get_var_itemsize nm).1 "get_var_itemsize" ("for variable " ++ nm) <;>
    exact ⟨rfl, rfl⟩

lemma get_var_nbytes_unscoped (w : AmiWrapper) (os : OsState) (nm : String) :
    (w.get_var_nbytes os nm).trace = [("get_var_nbytes", os.cwd)] ∧
    (w.get_var_nbytes os nm).os = os := by
  unfold AmiWrapper.get_var_nbytes
  dsimp only
  cases check_result (w.dll.get_var_nbytes nm).1 "get_var_nbytes" ("for variable " ++ nm) <;>
    exact ⟨rfl, rfl⟩

lemma get_subcomponent_count_unscoped (w : AmiWrapper) (os : OsState) :
    (w.get_subcomponent_count os).trace = [("get_subcomponent_count", os.cwd)] ∧
    (w.get_subcomponent_count os).os = os := by
  unfold AmiWrapper.get_subcomponent_count
  dsimp only
  cases check_result (w.dll.get_subcomponent_count).1 "get_subcomponent_count" <;>
    exact ⟨rfl, rfl⟩

lemma get_grid_rank_unscoped (w : AmiWrapper) (os : OsState) (g : Int) :
    (w.get_grid_rank os g).trace = [("get_grid_rank", os.cwd)] ∧
    (w.get_grid_rank os g).os = os := by
  unfold AmiWrapper.get_grid_rank
  dsimp only
  cases check_result (w.dll.get_grid_rank g).1 "get_grid_rank" ("for id " ++ toString g) <;>
    exact ⟨rfl, rfl⟩

lemma get_grid_type_unscoped (w : AmiWrapper) (os : OsState) (g : Int) :
    (w.get_grid_type os g).trace = [("get_grid_type", os.cwd)] ∧
    (w.get_grid_type os g).os = os := by
  unfold AmiWrapper.get_grid_type
  dsimp only
  cases check_result (w.dll.get_grid_type g).1 "get_grid_type" ("for id " ++ toString g) <;>
    exact ⟨rfl, rfl⟩

lemma get_grid_shape_unscoped (w : AmiWrapper) (os : OsState) (g : Int) (buf : List Int) :
    (w.get_grid_shape os g buf).trace = [("get_grid_shape", os.cwd)] ∧
    (w.get_grid_shape os g buf).os = os := by
  unfold AmiWrapper.get_grid_shape
  dsimp only
  cases check_result (w.dll.get_grid_shape g).1 "get_grid_shape" ("for id " ++ str_of_builtin_id) <;>
    exact ⟨rfl, rfl⟩

lemma get_grid_x_unscoped (w : AmiWrapper) (os : OsState) (g : Int) (buf : List Float) :
    (w.get_grid_x os g buf).trace = [("get_grid_x", os.cwd)] ∧
    (w.get_grid_x os g buf).os = os := by
  unfold AmiWrapper.get_grid_x
  dsimp only
  cases check_result (w.dll.get_grid_x g).1 "get_grid_x" ("for id " ++ str_of_builtin_id) <;>
    exact ⟨rfl, rfl⟩

lemma get_grid_y_unscoped (w : AmiWrapper) (os : OsState) (g : Int) (buf : List Float) :
    (w.get_grid_y os g buf).trace = [("get_grid_y", os.cwd)] ∧
    (w.get_grid_y os g buf).os = os := by
  unfold AmiWrapper.get_grid_y
  dsimp only
  cases check_result (w.dll.get_grid_y g).1 "get_grid_y" ("for id " ++ str_of_builtin_id) <;>
    exact ⟨rfl, rfl⟩

lemma get_grid_z_unscoped (w : AmiWrapper) (os : OsState) (g : Int) (buf : List Float) :
    (w.get_grid_z os g buf).trace = [("get_grid_z", os.cwd)] ∧
    (w.get_grid_z os g buf).os = os := by
  unfold AmiWrapper.get_grid_z
  dsimp only
  cases check_result (w.dll.get_grid_z g).1 "get_grid_z" ("for id " ++ str_of_builtin_id) <;>
    exact ⟨rfl, rfl⟩

lemma get_var_shape_unscoped (w : AmiWrapper) (os : OsState) (nm : String) :
    (w.get_var_shape os nm).os = os ∧
    ∀ e ∈ (w.get_var_shape os nm).trace, e.2 = os.cwd := by
  unfold AmiWrapper.get_var_shape AmiWrapper.get_var_rank
  dsimp only
  cases check_result (w.dll.get_var_rank nm).1 "get_var_rank" ("for variable " ++ nm) <;>
    dsimp only
  · refine ⟨rfl, ?_⟩
    intro e he
    simp only [List.mem_singleton] at he
    simp [he]
  · cases check_result (w.dll.get_var_shape nm).1 "get_var_shape" ("for variable " ++ nm) <;>
      refine ⟨rfl, ?_⟩ <;> intro e he <;> simp only [List.mem_append, List.mem_singleton] at he <;>
      rcases he with he | he <;> simp [he]

lemma mem_single_cwd (s : String) (os : OsState) :
    ∀ e ∈ [(s, os.cwd)], e.2 = os.cwd := by
  intro e he
  simp only [List.mem_singleton] at he
  simp [he]

lemma mem_append_cwd {t1 t2 : KTrace} {c : String}
    (h1 : ∀ e ∈ t1, e.2 = c) (h2 : ∀ e ∈ t2, e.2 = c) :
    ∀ e ∈ t1 ++ t2, e.2 = c := by
  intro e he
  rcases List.mem_append.mp he with h | h
  · exact h1 e h
  · exact h2 e h

/-- Whatever the kernel reports, `get_var_rank` leaves the object and
the process state unchanged and its one kernel call runs at the
caller's directory. -/
lemma get_var_rank_split (w : AmiWrapper) (os : OsState) (nm : String) :
    ∃ r, w.get_var_rank os nm = ⟨r, w, os, [("get_var_rank", os.cwd)]⟩ := by
  unfold AmiWrapper.get_var_rank
  dsimp only
  cases check_result (w.dll.get_var_rank nm).1 "get_var_rank" ("for variable " ++ nm) <;>
    exact ⟨_, rfl⟩

/-- Same for `get_var_type`. -/
lemma get_var_type_split (w : AmiWrapper) (os : OsState) (nm : String) :
    ∃ r, w.get_var_type os nm = ⟨r, w, os, [("get_var_type", os.cwd)]⟩ := by
  unfold AmiWrapper.get_var_type
  dsimp only
  cases check_result (w.dll.get_var_type nm).1 "get_var_type" ("for variable " ++ nm) <;>
    exact ⟨_, rfl⟩

/-- Same for `get_var_shape`: the object and process state come back
unchanged and every kernel call in its trace runs at the caller's
directory. -/
lemma get_var_shape_split (w : AmiWrapper) (os : OsState) (nm : String) :
    ∃ r t, w.get_var_shape os nm = ⟨r, w, os, t⟩ ∧ ∀ e ∈ t, e.2 = os.cwd := by
  obtain ⟨r1, h1⟩ := get_var_rank_split w os nm
  unfold AmiWrapper.get_var_shape
  rw [h1]
  cases r1 with
  | error e =>
      exact ⟨Except.error e, [("get_var_rank", os.cwd)], rfl, mem_single_cwd _ os⟩
  | ok rank =>
      dsimp only
      cases check_result (w.dll.get_var_shape nm).1 "get_var_shape" ("for variable " ++ nm) <;>
        exact ⟨_, _, rfl, mem_append_cwd (mem_single_cwd _ os) (mem_single_cwd _ os)⟩

/-- `get_value_ptr_scalar` contains no `os.chdir`: on every path (type
query failing, `assert False` on a double, the int view, the implicit
`None`) the process state is unchanged and each kernel call runs at the
caller's directory. -/
lemma get_value_ptr_scalar_split (w : AmiWrapper) (os : OsState) (nm : String) :
    ∃ r t, w.get_value_ptr_scalar os nm = ⟨r, w, os, t⟩ ∧ ∀ e ∈ t, e.2 = os.cwd := by
  obtain ⟨rt, ht⟩ := get_var_type_split w os nm
  unfold AmiWrapper.get_value_ptr_scalar
  rw [ht]
  cases rt with
  | error e =>
      exact ⟨Except.error e, [("get_var_type", os.cwd)], rfl, mem_single_cwd _ os⟩
  | ok ty =>
      dsimp only
      by_cases hd : py_lower_startswith ty "double" = true
      · rw [if_pos hd]
        exact ⟨_, _, rfl, mem_single_cwd _ os⟩
      · rw [if_neg hd]
        by_cases hi : py_lower_startswith ty "int" = true
        · rw [if_pos hi]
          cases check_result (w.dll.get_value_ptr_int nm).1 "get_value_ptr"
              ("for variable " ++ nm) <;>
            exact ⟨_, _, rfl, mem_append_cwd (mem_single_cwd _ os) (mem_single_cwd _ os)⟩
        · rw [if_neg hi]
          exact ⟨_, _, rfl, mem_single_cwd _ os⟩

/-- `get_value_ptr` contains no `os.chdir` either: on every path (any
rank, any type string, any kernel status) the process state is
unchanged and each kernel call — the metadata queries and the
double/int pointer queries — runs at the caller's directory. -/
lemma get_value_ptr_split (w : AmiWrapper) (os : OsState) (nm : String) :
    ∃ r t, w.get_value_ptr os nm = ⟨r, w, os, t⟩ ∧ ∀ e ∈ t, e.2 = os.cwd := by
  obtain ⟨r1, h1⟩ := get_var_rank_split w os nm
  unfold AmiWrapper.get_value_ptr
  rw [h1]
  cases r1 with
  | error e =>
      exact ⟨Except.error e, [("get_var_rank", os.cwd)], rfl, mem_single_cwd _ os⟩
  | ok rank =>
      dsimp only
      by_cases h0 : (rank == 0) = true
      · rw [if_pos h0]
        obtain ⟨rs, ts, hs, hms⟩ := get_value_ptr_scalar_split w os nm
        rw [hs]
        exact ⟨rs, _, rfl, mem_append_cwd (mem_single_cwd _ os) hms⟩
      · rw [if_neg h0]
        obtain ⟨rt, ht⟩ := get_var_type_split w os nm
        rw [ht]
        cases rt with
        | error e =>
            exact ⟨Except.error e, _, rfl,
              mem_append_cwd (mem_single_cwd _ os) (mem_single_cwd _ os)⟩
        | ok ty =>
            dsimp only
            obtain ⟨rsh, tsh, hsh, hmsh⟩ := get_var_shape_split w os nm
            rw [hsh]
            cases rsh with
            | error e =>
                exact ⟨Except.error e, _, rfl,
                  mem_append_cwd
                    (mem_append_cwd (mem_single_cwd _ os) (mem_single_cwd _ os)) hmsh⟩
            | ok sh =>
                dsimp only
                by_cases hd : py_lower_startswith ty "double" = true
                · rw [if_pos hd]
                  cases check_result (w.dll.get_value_ptr_double nm).1 "get_value_ptr"
                      ("for variable " ++ nm) <;>
                    exact ⟨_, _, rfl,
                      mem_append_cwd
                        (mem_append_cwd
                          (mem_append_cwd (mem_single_cwd _ os) (mem_single_cwd _ os)) hmsh)
                        (mem_single_cwd _ os)⟩
                · rw [if_neg hd]
                  by_cases hi : py_lower_startswith ty "int" = true
                  · rw [if_pos hi]
                    cases check_result (w.dll.get_value_ptr_int nm).1 "get_value_ptr"
                        ("for variable " ++ nm) <;>
                      exact ⟨_, _, rfl,
                        mem_append_cwd
                          (mem_append_cwd
                            (mem_append_cwd (mem_single_cwd _ os) (mem_single_cwd _ os)) hmsh)
                          (mem_single_cwd _ os)⟩
                  · rw [if_neg hi]
                    exact ⟨_, _, rfl,
                      mem_append_cwd
                        (mem_append_cwd (mem_single_cwd _ os) (mem_single_cwd _ os)) hmsh⟩

/-! ### Claim theorems -/

/-- C2 (amended): only the lifecycle and stepping/solve methods
(`initialize`, `update`, `update_until`, `finalize`, `prepare_time_step`,
`do_time_step`, `finalize_time_step`, `prepare_solve`, `solve`,
`finalize_solve`) switch to the configured working directory around the
kernel call — `update_until` performs the switch but invokes no kernel
entry point at all (empty trace) and fails there; the clock queries, the
variable-metadata queries, the value-pointer queries (`get_value_ptr`
and `get_value_ptr_scalar`), the grid queries and
`get_subcomponent_count` invoke the kernel at the caller's current
directory, with no directory switch at all. -/
theorem claim_C2_scoping_partition (w : AmiWrapper) (os : OsState)
    (cfg nm : String) (dt : Float) (g cid : Int) (ibuf : List Int)
    (fbuf : List Float) :
    (w.initialize_kernel os cfg).trace = [("initialize", w.working_directory)] ∧
    (w.update os).trace = [("update", w.working_directory)] ∧
    (w.finalize os).trace = [("finalize", w.working_directory)] ∧
    (w.prepare_time_step os dt).trace = [("prepare_time_step", w.working_directory)] ∧
    (w.do_time_step os).trace = [("do_time_step", w.working_directory)] ∧
    (w.finalize_time_step os).trace = [("finalize_time_step", w.working_directory)] ∧
    (w.prepare_solve os cid).trace = [("prepare_solve", w.working_directory)] ∧
    (w.solve os cid).trace = [("solve", w.working_directory)] ∧
    (w.finalize_solve os cid).trace = [("finalize_solve", w.working_directory)] ∧
    (w.get_current_time os).trace = [("get_current_time", os.cwd)] ∧
    (w.get_current_time os).os = os ∧
    (w.get_start_time os).trace = [("get_start_time", os.cwd)] ∧
    (w.get_end_time os).trace = [("get_end_time", os.cwd)] ∧
    (w.get_time_step os).trace = [("get_time_step", os.cwd)] ∧
    (w.get_var_type os nm).trace = [("get_var_type", os.cwd)] ∧
    (w.get_var_rank os nm).trace = [("get_var_rank", os.cwd)] ∧
    (w.get_var_rank os nm).os = os ∧
    (w.get_var_itemsize os nm).trace = [("get_var_itemsize", os.cwd)] ∧
    (w.get_var_nbytes os nm).trace = [("get_var_nbytes", os.cwd)] ∧
    (∀ e ∈ (w.get_var_shape os nm).trace, e.2 = os.cwd) ∧
    (w.get_subcomponent_count os).trace = [("get_subcomponent_count", os.cwd)] ∧
    (w.get_grid_rank os g).trace = [("get_grid_rank", os.cwd)] ∧
    (w.get_grid_type os g).trace = [("get_grid_type", os.cwd)] ∧
    (w.get_grid_shape os g ibuf).trace = [("get_grid_shape", os.cwd)] ∧
    (w.get_grid_x os g fbuf).trace = [("get_grid_x", os.cwd)] ∧
    (w.get_grid_y os g fbuf).trace = [("get_grid_y", os.cwd)] ∧
    (w.get_grid_z os g fbuf).trace = [("get_grid_z", os.cwd)] ∧
    (w.get_value_ptr os nm).os = os ∧
    (∀ e ∈ (w.get_value_ptr os nm).trace, e.2 = os.cwd) ∧
    (w.get_value_ptr_scalar os nm).os = os ∧
    (∀ e ∈ (w.get_value_ptr_scalar os nm).trace, e.2 = os.cwd) ∧
    (w.update_until os dt).trace = [] ∧
    (w.update_until os dt).os.cwd = w.working_directory := by
  obtain ⟨rp, tp, hp, hmp⟩ := get_value_ptr_split w os nm
  obtain ⟨rs, ts, hs, hms⟩ := get_value_ptr_scalar_split w os nm
  refine ⟨initialize_kernel_scoped w os cfg, update_scoped w os, finalize_scoped w os,
    prepare_time_step_scoped w os dt, do_time_step_scoped w os,
    finalize_time_step_scoped w os, prepare_solve_scoped w os cid,
    solve_scoped w os cid, finalize_solve_scoped w os cid,
    (get_current_time_unscoped w os).1, (get_current_time_unscoped w os).2,
    (get_start_time_unscoped w os).1, (get_end_time_unscoped w os).1,
    (get_time_step_unscoped w os).1, (get_var_type_unscoped w os nm).1,
    (get_var_rank_unscoped w os nm).1, (get_var_rank_unscoped w os nm).2,
    (get_var_itemsize_unscoped w os nm).1, (get_var_nbytes_unscoped w os nm).1,
    (get_var_shape_unscoped w os nm).2,
    (get_subcomponent_count_unscoped w os).1, (get_grid_rank_unscoped w os g).1,
    (get_grid_type_unscoped w os g).1, (get_grid_shape_unscoped w os g ibuf).1,
    (get_grid_x_unscoped w os g fbuf).1, (get_grid_y_unscoped w os g fbuf).1,
    (get_grid_z_unscoped w os g fbuf).1, ?_, ?_, ?_, ?_, rfl, rfl⟩
  · rw [hp]
  · rw [hp]
    exact hmp
  · rw [hs]
  · rw [hs]
    exact hms

/-- C2 (counterexample): with configured working directory "wd" and the
caller sitting in "caller", `get_current_time` invokes the kernel with
the process still in "caller" — the clock query is not bracketed by a
switch to the configured working directory, contradicting the claim. -/
theorem claim_C2_counterexample :
    wWd.working_directory = "wd" ∧
    (wWd.get_current_time osC).trace = [("get_current_time", "caller")] ∧
    ("caller" : String) ≠ "wd" :=
  ⟨rfl, rfl, by decide⟩

/-- C10: the constructor takes only the kernel module path; right after
construction both `working_directory` and `previous_directory` are the
relative path ".", so the first directory-scoped kernel call switches to
"." (the caller's own current directory). -/
theorem claim_C10_constructor_defaults (loaded : Dll) (path : String) (os : OsState)
    (cfg : String) :
    (AmiWrapper.init loaded path).working_directory = "." ∧
    (AmiWrapper.init loaded path).previous_directory = "." ∧
    ((AmiWrapper.init loaded path).update os).trace = [("update", ".")] ∧
    ((AmiWrapper.init loaded path).initialize_kernel os cfg).trace =
      [("initialize", ".")] :=
  ⟨rfl, rfl, update_scoped (AmiWrapper.init loaded path) os,
    initialize_kernel_scoped (AmiWrapper.init loaded path) os cfg⟩

/-- C7: `update_until` raises unconditionally (it feeds `BMI_FAILURE` to
`check_result` without ever invoking a kernel entry point), and each
protocol method the binding does not implement raises
`NotImplementedError` unconditionally — none of them silently no-ops. -/
theorem claim_C7_unconditional_failure (w : AmiWrapper) (os : OsState)
    (time : Float) (nm : String) (dest vals : List Float) (g : Int) :
    (w.update_until os time).result =
      Except.error (PyErr.exn "MODFLOW 6 BMI, exception in: update_until ()") ∧
    (w.update_until os time).trace = [] ∧
    (w.get_component_name os).result = Except.error PyErr.notImplementedError ∧
    (w.get_time_units os).result = Except.error PyErr.notImplementedError ∧
    (w.get_value os nm dest).result = Except.error PyErr.notImplementedError ∧
    (w.set_value os nm vals).result = Except.error PyErr.notImplementedError ∧
    (w.get_grid_size os g).result = Except.error PyErr.notImplementedError ∧
    (w.get_grid_node_count os g).result = Except.error PyErr.notImplementedError :=
  ⟨rfl, rfl, rfl, rfl, rfl, rfl, rfl, rfl⟩

/-- C1 (code-bug evidence): the restore `os.chdir(self.previous_directory)`
sits after `check_result` with no try/finally, so when the kernel's
`initialize` reports failure the method raises with the process left in
the configured working directory "wd", not the caller's "caller"; the
success path does restore the caller's directory. -/
theorem claim_C1_failure_skips_restore :
    (wInitFail.initialize_kernel osC "mfsim.nam").result =
      Except.error (PyErr.exn "MODFLOW 6 BMI, exception in: initialize ()") ∧
    (wInitFail.initialize_kernel osC "mfsim.nam").os.cwd = "wd" ∧
    ("wd" : String) ≠ osC.cwd ∧
    (wWd.initialize_kernel osC "mfsim.nam").result = Except.ok () ∧
    (wWd.initialize_kernel osC "mfsim.nam").os.cwd = osC.cwd :=
  ⟨rfl, rfl, by decide, rfl, rfl⟩

/-- C9 (code-bug evidence): on kernel failure, `get_grid_shape` and
`get_grid_x` put `"for id " + str(id)` into the error detail with `id`
the Python builtin function, so the detail is the fixed text
"for id <built-in function id>" whatever grid id the caller passed (it
does not contain "7" for grid 7); `get_grid_rank`, by contrast, formats
the actual grid id. -/
theorem claim_C9_detail_lacks_grid_id :
    (wGridFail.get_grid_shape osC 7 []).result =
      Except.error (PyErr.exn
        "MODFLOW 6 BMI, exception in: get_grid_shape (for id <built-in function id>)") ∧
    (wGridFail.get_grid_x osC 7 []).result =
      Except.error (PyErr.exn
        "MODFLOW 6 BMI, exception in: get_grid_x (for id <built-in function id>)") ∧
    (∀ g : Int, (wGridFail.get_grid_shape osC g []).result =
      (wGridFail.get_grid_shape osC 7 []).result) ∧
    (wGridFail.get_grid_rank osC 7).result =
      Except.error (PyErr.exn "MODFLOW 6 BMI, exception in: get_grid_rank (for id 7)") :=
  ⟨rfl, rfl, fun _ => rfl, rfl⟩

/-- C3 (code-bug evidence): for the rank-1 variable "FLAG" of
kernel-reported type "CHARACTER", `get_value_ptr` returns Python `None`
(it falls off the end of the function instead of raising a named
unsupported-type error); for the rank-0 double "DSCAL" the scalar path
hits `assert False`; the supported rank-0 integer "NITER" does get its
1-element view. -/
theorem claim_C3_fallthrough_returns_none :
    (wOk.get_value_ptr osC "FLAG").result = Except.ok none ∧
    (wOk.get_value_ptr osC "DSCAL").result = Except.error PyErr.assertionError ∧
    (wOk.get_value_ptr osC "NITER").result =
      Except.ok (some ⟨DType.int32, 1, [1], true, 7⟩) :=
  ⟨by decide, by decide, by decide⟩

/-! ### Shape trimming (claim C4) -/

lemma dropWhile_append_of_zeros (a r : List Int) (ha : ∀ x ∈ a, x = 0) :
    (a ++ r).dropWhile (· == 0) = r.dropWhile (· == 0) := by
  induction a with
  | nil => rfl
  | cons x xs ih =>
      have hx : x = 0 := ha x (by simp)
      have hxs : ∀ y ∈ xs, y = 0 := fun y hy => ha y (by simp [hy])
      simp [List.dropWhile_cons, hx, ih hxs]

lemma dropWhile_of_head_ne_zero (l : List Int) (h : l.head? ≠ some 0) :
    l.dropWhile (· == 0) = l := by
  cases l with
  | nil => rfl
  | cons x xs =>
      have hx : x ≠ 0 := by
        intro hx0
        exact h (by simp [hx0])
      simp [List.dropWhile_cons, hx]

lemma dropWhile_all_zeros (b : List Int) (hb : ∀ x ∈ b, x = 0) :
    b.dropWhile (· == 0) = [] := by
  have := dropWhile_append_of_zeros b [] hb
  simpa using this

/-- C4 (counterexample): for variable "HEAD" the kernel reports the
padded shape array [0, 10, 5]; that array has no trailing zeros, so
under the claim the trimming would be a no-op and the logical shape
would be [0, 10, 5] — but `get_value_ptr` builds the view with shape
[10, 5]: the leading zero is removed as well. -/
theorem claim_C4_counterexample :
    (wOk.get_value_ptr osC "HEAD").result =
      Except.ok (some ⟨DType.float64, 2, [10, 5], true, 42⟩) ∧
    trim_zeros [0, 10, 5] = [10, 5] ∧
    [(10 : Int), 5] ≠ [0, 10, 5] :=
  ⟨by decide, by decide, by decide⟩

/-- C4 (amended): the logical shape used by `get_value_ptr` is obtained
from the raw kernel-reported shape array by removing the maximal run of
leading zeros and the maximal run of trailing zeros (`np.trim_zeros`
with its default mode); the entries between the first and the last
non-zero entry, interior zeros included, are preserved, and a shape
array with neither leading nor trailing zeros is left unchanged. -/
theorem claim_C4_trim_leading_and_trailing (a m b : List Int)
    (ha : ∀ x ∈ a, x = 0) (hb : ∀ x ∈ b, x = 0)
    (hm1 : m.head? ≠ some 0) (hm2 : m.getLast? ≠ some 0) :
    trim_zeros (a ++ m ++ b) = m := by
  have h1 : (a ++ m ++ b).dropWhile (· == 0) = (m ++ b).dropWhile (· == 0) := by
    rw [List.append_assoc]
    exact dropWhile_append_of_zeros a (m ++ b) ha
  cases m with
  | nil =>
      have h2 : b.dropWhile (· == 0) = [] := dropWhile_all_zeros b hb
      unfold trim_zeros
      rw [h1]
      simp [h2]
  | cons x xs =>
      have hx : x ≠ 0 := by
        intro hx0
        exact hm1 (by simp [hx0])
      have h2 : ((x :: xs) ++ b).dropWhile (· == 0) = (x :: xs) ++ b := by
        apply dropWhile_of_head_ne_zero
        simpa using hx
      unfold trim_zeros
      rw [h1, h2, List.reverse_append]
      rw [dropWhile_append_of_zeros b.reverse (x :: xs).reverse
        (fun y hy => hb y (List.mem_reverse.mp hy))]
      rw [dropWhile_of_head_ne_zero]
      · exact List.reverse_reverse _
      · rw [List.head?_reverse]
        exact hm2

/-- Witness for C4 (amended) at the concrete shape [0, 10, 5, 0]. -/
theorem claim_C4_trim_witness : trim_zeros [0, 10, 5, 0] = [10, 5] :=
  claim_C4_trim_leading_and_trailing [0] [10, 5] [0]
    (by decide) (by decide) (by decide) (by decide)

/-! ### Metadata query results on kernel success (claims C5, C8) -/

lemma get_var_rank_result (w : AmiWrapper) (os : OsState) (nm : String) (r : Int)
    (h : w.dll.get_var_rank nm = (BMI_SUCCESS, r)) :
    w.get_var_rank os nm = ⟨Except.ok r, w, os, [("get_var_rank", os.cwd)]⟩ := by
  unfold AmiWrapper.get_var_rank
  rw [h]
  simp [check_result, BMI_SUCCESS]

lemma get_var_type_result (w : AmiWrapper) (os : OsState) (nm ty : String)
    (h : w.dll.get_var_type nm = (BMI_SUCCESS, ty)) :
    w.get_var_type os nm = ⟨Except.ok ty, w, os, [("get_var_type", os.cwd)]⟩ := by
  unfold AmiWrapper.get_var_type
  rw [h]
  simp [check_result, BMI_SUCCESS]

lemma get_var_shape_result (w : AmiWrapper) (os : OsState) (nm : String)
    (r : Int) (sh : List Int)
    (hr : w.dll.get_var_rank nm = (BMI_SUCCESS, r))
    (hs : w.dll.get_var_shape nm = (BMI_SUCCESS, sh)) :
    w.get_var_shape os nm =
      ⟨Except.ok sh, w, os, [("get_var_rank", os.cwd), ("get_var_shape", os.cwd)]⟩ := by
  unfold AmiWrapper.get_var_shape
  rw [get_var_rank_result w os nm r hr]
  simp [hs, check_result, BMI_SUCCESS]

/-- C5: for a variable named "HEAD" whose kernel-reported rank is 2,
kernel-reported shape array is [0, 10, 5] and kernel-reported type
string is "DOUBLE PRECISION", `get_value_ptr` returns (for any kernel
address `p` handed out by the double-pointer query) the
column-major (Fortran-ordered) double-precision view of logical shape
(10, 5) built over that kernel-owned address — obtained via
`get_value_ptr_double`, not the int query. -/
theorem claim_C5_head_2d_double_view (w : AmiWrapper) (os : OsState) (p : Nat)
    (hrank : w.dll.get_var_rank "HEAD" = (BMI_SUCCESS, 2))
    (htype : w.dll.get_var_type "HEAD" = (BMI_SUCCESS, "DOUBLE PRECISION"))
    (hshape : w.dll.get_var_shape "HEAD" = (BMI_SUCCESS, [0, 10, 5]))
    (hptr : w.dll.get_value_ptr_double "HEAD" = (BMI_SUCCESS, p)) :
    (w.get_value_ptr os "HEAD").result =
      Except.ok (some ⟨DType.float64, 2, [10, 5], true, p⟩) := by
  have hd : py_lower_startswith "DOUBLE PRECISION" "double" = true := by decide
  have ht : trim_zeros [0, 10, 5] = [10, 5] := by decide
  have hb : ((2 : Int) == 0) = false := by decide
  unfold AmiWrapper.get_value_ptr
  rw [get_var_rank_result w os "HEAD" 2 hrank]
  simp [hb, get_var_type_result w os "HEAD" "DOUBLE PRECISION" htype,
    get_var_shape_result w os "HEAD" 2 [0, 10, 5] hrank hshape,
    hd, ht, hptr, check_result, BMI_SUCCESS]

/-- Witness for C5 on the concrete kernel `dllOk`, whose double-pointer
query hands out address 42. -/
theorem claim_C5_witness :
    (wOk.get_value_ptr osC "HEAD").result =
      Except.ok (some ⟨DType.float64, 2, [10, 5], true, 42⟩) :=
  claim_C5_head_2d_double_view wOk osC 42 rfl rfl rfl rfl

/-- C6: when the kernel call in `solve` reports success, the returned
convergence flag is the test `has_converged == 1` on the kernel's raw
output integer: `solve` yields `true` exactly when that integer is 1,
and `false` for every other value. -/
theorem claim_C6_convergence_decoding (w : AmiWrapper) (os : OsState) (cid : Int)
    (h : (w.dll.solve cid).1 = BMI_SUCCESS) :
    (w.solve os cid).result = Except.ok ((w.dll.solve cid).2 == 1) ∧
    ((w.solve os cid).result = Except.ok true ↔ (w.dll.solve cid).2 = 1) := by
  have hr : (w.solve os cid).result = Except.ok ((w.dll.solve cid).2 == 1) := by
    unfold AmiWrapper.solve
    simp [check_result, BMI_SUCCESS, h]
  refine ⟨hr, ?_⟩
  rw [hr]
  simp

/-- Witness for C6: on `dllOk`, `solve` converges for subcomponent 1
(raw output 1) and not for subcomponents 2 and -3 (raw output 5). -/
theorem claim_C6_witness :
    (wOk.solve osC 1).result = Except.ok true ∧
    (wOk.solve osC 2).result = Except.ok false ∧
    (wOk.solve osC (-3)).result = Except.ok false := by
  have h1 := (claim_C6_convergence_decoding wOk osC 1 rfl).1
  have h2 := (claim_C6_convergence_decoding wOk osC 2 rfl).1
  have h3 := (claim_C6_convergence_decoding wOk osC (-3) rfl).1
  refine ⟨?_, ?_, ?_⟩
  · rw [h1]
    rfl
  · rw [h2]
    rfl
  · rw [h3]
    rfl

/-- C8: `check_result` returns normally exactly when the status code is
`BMI_SUCCESS` (0); for every nonzero status it raises, and the raised
message is built around the failing kernel function's name; a
representative wrapper (`get_var_rank`) therefore returns its decoded
result on status 0 and raises the composed message, carrying
"get_var_rank" and the variable name, on any nonzero status. -/
theorem claim_C8_status_contract (result : Int) (fn detail : String)
    (w : AmiWrapper) (os : OsState) (nm : String) :
    (check_result result fn detail = Except.ok () ↔ result = BMI_SUCCESS) ∧
    (result ≠ BMI_SUCCESS → check_result result fn detail =
      Except.error (PyErr.exn
        ("MODFLOW 6 BMI, exception in: " ++ fn ++ " (" ++ detail ++ ")"))) ∧
    ((w.dll.get_var_rank nm).1 = BMI_SUCCESS →
      (w.get_var_rank os nm).result = Except.ok (w.dll.get_var_rank nm).2) ∧
    ((w.dll.get_var_rank nm).1 ≠ BMI_SUCCESS →
      (w.get_var_rank os nm).result = Except.error (PyErr.exn
        ("MODFLOW 6 BMI, exception in: " ++ "get_var_rank" ++ " (" ++
          ("for variable " ++ nm) ++ ")"))) := by
  refine ⟨?_, ?_, ?_, ?_⟩
  · by_cases h : result = BMI_SUCCESS <;> simp [check_result, h]
  · intro h
    simp [check_result, h]
  · intro h
    unfold AmiWrapper.get_var_rank
    simp [check_result, h]
  · intro h
    unfold AmiWrapper.get_var_rank
    simp [check_result, h]

/-- Witness for C8: status 0 returns normally, status 3 raises with the
function name in the message; on `dllOk`, `get_var_rank` decodes rank 2
for "HEAD". -/
theorem claim_C8_witness :
    check_result 0 "update" "" = Except.ok () ∧
    check_result 3 "update" "x" =
      Except.error (PyErr.exn "MODFLOW 6 BMI, exception in: update (x)") ∧
    (wOk.get_var_rank osC "HEAD").result = Except.ok 2 := by
  have h3 := claim_C8_status_contract 3 "update" "x" wOk osC "HEAD"
  have h0 := claim_C8_status_contract 0 "update" "" wOk osC "HEAD"
  refine ⟨h0.1.mpr rfl, ?_, ?_⟩
  · rw [h3.2.1 (by decide)]
    rfl
  · rw [h3.2.2.1 rfl]
    rfl

/-- Witness for C2 (amended) at a concrete wrapper: `update` runs the
kernel in the configured "wd", `get_var_rank` runs it in the caller's
"caller", and `update_until` switches to "wd" (and fails there without
any kernel call). -/
theorem claim_C2_witness :
    (wWd.update osC).trace = [("update", "wd")] ∧
    (wWd.get_var_rank osC "HEAD").trace = [("get_var_rank", "caller")] ∧
    (wWd.update_until osC 1.0).os.cwd = "wd" := by
  have h := claim_C2_scoping_partition wWd osC "mfsim.nam" "HEAD" 1.0 0 0 [] []
  obtain ⟨-, h2, -, -, -, -, -, -, -, -, -, -, -, -, -, h16, -, -, -, -, -, -, -,
    -, -, -, -, -, -, -, -, -, h33⟩ := h
  exact ⟨h2, h16, h33⟩

/-- Witness for C7 at a concrete wrapper and inputs. -/
theorem claim_C7_witness :
    (wOk.update_until osC 1.0).result =
      Except.error (PyErr.exn "MODFLOW 6 BMI, exception in: update_until ()") ∧
    (wOk.get_component_name osC).result = Except.error PyErr.notImplementedError :=
  ⟨(claim_C7_unconditional_failure wOk osC 1.0 "x" [] [] 0).1,
    (claim_C7_unconditional_failure wOk osC 1.0 "x" [] [] 0).2.2.1⟩

/-- Witness for C10 at the concrete kernel `dllOk`. -/
theorem claim_C10_witness :
    wOk.working_directory = "." ∧ wOk.previous_directory = "." ∧
    (wOk.update osC).trace = [("update", ".")] := by
  have h := claim_C10_constructor_defaults dllOk "libmf6.so" osC "mfsim.nam"
  exact ⟨h.1, h.2.1, h.2.2.1⟩
